import Mathlib

/-!
# Verification of the session/transport relay subsystem

Shallow embedding of the core of the `claude-code-remote` server and its
client-side reconnection coordinator:

* `src/routes/ws.js` — per-connection protocol engine: output batching
  (`flushBuffer`, `ptyDataHandler`), exit notification (`ptyExitHandler`),
  the message dispatcher (`input` / `resize` / `ping`), and the close handler.
* `src/services/sessionManager.js` — session registry (`createSession`,
  `getSession`, `getAllSessions`, `deleteSession`, `resizeSession`,
  `writeToSession`).
* `src/services/ptyManager.js` — process bridge (`spawnPty`, `resizePty`,
  `writePty`, `killPty`); the external `node-pty` terminal is modelled by
  `PtyHandle` / `nodePtyResize`.
* `public/js/resize-coordinator.js` (the `App.connectWebSocket` `onclose`
  handler) — reconnection coordinator with exponential backoff.

JS `Map`s keyed by freshly generated ids are represented as lists whose
elements carry their key; uuid generation and pty pid allocation are
represented by monotone counters, so freshness is an explicit invariant.
Timers are represented by the events they eventually produce: a scheduled
flush timeout is a boolean flag, and the firing of the flush timer is an
explicit step (`flushBuffer`).
-/

namespace ClaudeCodeRemote

/-- Server→client message envelope (`{type:"status"|"output"|"exit"|"pong"}`),
as serialised by `ws.send(JSON.stringify(...))` in `src/routes/ws.js`. -/
inductive Envelope : Type
  | statusMsg (status : String) (sessionId : String)
  | output (data : String)
  | exitMsg (code : Int)
  | pong (timestamp : Int)
  deriving DecidableEq, Repr

/-- Client→server message envelope (`{type:"input"|"resize"|"ping"}`), plus the
`unknown` case for any other `type` (it hits the `default:` branch of the
switch in `src/routes/ws.js`). -/
inductive ClientMsg : Type
  | input (data : String)
  | resize (cols rows : Int)
  | ping (timestamp : Int)
  | unknown (t : String)
  deriving DecidableEq, Repr

/-- Per-connection state of the protocol engine in `src/routes/ws.js`:
`outputBuffer` and the `flushTimeout` handle (represented by whether a flush
is currently scheduled), the socket's `readyState === OPEN` as `wsOpen`, the
heartbeat `isAlive` flag, and the trace `sent` of envelopes passed to
`ws.send` on this connection, in order. -/
structure ConnState : Type where
  outputBuffer : String
  flushTimeout : Bool
  wsOpen : Bool
  isAlive : Bool
  sent : List Envelope
  deriving DecidableEq, Repr

/-- Model of `flushBuffer` from `src/routes/ws.js` (lines 95–106): clear the
timeout handle; if the buffer is non-empty (JS truthiness of a string) and the
socket is open, send one `output` envelope carrying the whole buffer and clear
the buffer. A send error is caught and logged, after which the buffer is
cleared anyway, so sending is modelled as always appending to the trace. -/
def flushBuffer (st : ConnState) : ConnState :=
  let st1 := { st with flushTimeout := false }
  if st1.outputBuffer ≠ "" ∧ st1.wsOpen = true then
    { st1 with
      sent := st1.sent ++ [Envelope.output st1.outputBuffer]
      outputBuffer := "" }
  else st1

/-- Model of `ptyDataHandler` from `src/routes/ws.js` (lines 108–114): append
the chunk to `outputBuffer` and schedule a flush if none is scheduled (the
flag ends up `true` either way). -/
def ptyDataHandler (data : String) (st : ConnState) : ConnState :=
  { st with
    outputBuffer := st.outputBuffer ++ data
    flushTimeout := true }

/-- Model of `ptyExitHandler` from `src/routes/ws.js` (lines 123–132): if the
buffer is non-empty and the socket open, flush first; then, if the socket is
open, send the `exit` envelope. -/
def ptyExitHandler (exitCode : Int) (st : ConnState) : ConnState :=
  let st1 :=
    if st.outputBuffer ≠ "" ∧ st.wsOpen = true then flushBuffer st else st
  if st1.wsOpen = true then
    { st1 with sent := st1.sent ++ [Envelope.exitMsg exitCode] }
  else st1

/-- Delivery of a sequence of pty output chunks to the connection, one
`ptyDataHandler` invocation per chunk, in stream order. -/
def runChunks (chunks : List String) (st : ConnState) : ConnState :=
  chunks.foldl (fun s c => ptyDataHandler c s) st

/-- In-order concatenation of a list of output chunks. -/
def concatChunks : List String → String
  | [] => ""
  | c :: cs => c ++ concatChunks cs

/-- A pty process handle as exposed by the external `node-pty` library to
`src/services/ptyManager.js`: process id, current terminal dimensions, an
aliveness flag, and the trace of data written into its input stream. -/
structure PtyHandle : Type where
  pid : Nat
  cols : Int
  rows : Int
  alive : Bool
  written : List String
  deriving DecidableEq, Repr

/-- Contract of the external `node-pty` `Terminal.resize(cols, rows)`: it
throws `'resizing must be done using positive cols and rows'` when either
dimension is non-positive, and otherwise updates the stored dimensions. -/
def nodePtyResize (p : PtyHandle) (cols rows : Int) : Except String PtyHandle :=
  if cols ≤ 0 ∨ rows ≤ 0 then
    Except.error "resizing must be done using positive cols and rows"
  else Except.ok { p with cols := cols, rows := rows }

/-- Model of `resizePty` from `src/services/ptyManager.js` (lines 188–193):
after the `typeof ptyProcess.resize === 'function'` guard (always true for a
real handle) it calls `ptyProcess.resize(cols, rows)` directly, with no check
on the values; any error from `node-pty` propagates to the caller. -/
def resizePty (p : PtyHandle) (cols rows : Int) : Except String PtyHandle :=
  nodePtyResize p cols rows

/-- Model of `writePty` from `src/services/ptyManager.js` (lines 200–204):
forwards the data to the handle's input stream. -/
def writePty (p : PtyHandle) (data : String) : PtyHandle :=
  { p with written := p.written ++ [data] }

/-- Model of `killPty` from `src/services/ptyManager.js` (lines 210–220):
best-effort terminate; errors are caught and logged, never raised. -/
def killPty (p : PtyHandle) : PtyHandle :=
  { p with alive := false }

/-- Model of the `ws.on('message')` dispatcher from `src/routes/ws.js`
(lines 136–169). `input`: forwarded iff `msg.data` is truthy (non-empty).
`resize`: forwarded iff `msg.cols` and `msg.rows` are truthy (non-zero); an
exception thrown by the pty resize is caught by the handler's surrounding
`try/catch`, which logs it and leaves the connection open and the handle
unchanged. `ping`: set `isAlive` and answer with one `pong` carrying the
request's timestamp. Unknown types are logged and ignored. -/
def handleClientMessage (msg : ClientMsg) (p : PtyHandle) (st : ConnState) :
    PtyHandle × ConnState :=
  match msg with
  | ClientMsg.input data =>
      if data ≠ "" then (writePty p data, st) else (p, st)
  | ClientMsg.resize cols rows =>
      if cols ≠ 0 ∧ rows ≠ 0 then
        match resizePty p cols rows with
        | Except.ok p2 => (p2, st)
        | Except.error _ => (p, st)
      else (p, st)
  | ClientMsg.ping ts =>
      (p, { st with
              isAlive := true
              sent := st.sent ++ [Envelope.pong ts] })
  | ClientMsg.unknown _ => (p, st)

/-- A session record as built by `createSession` in
`src/services/sessionManager.js` (lines 39–46). The `pty` field of the JS
object (a handle reference) is represented by the handle's pid. -/
structure Session : Type where
  id : Nat
  ptyPid : Nat
  repoPath : String
  repo : String
  status : String
  createdAt : String
  deriving DecidableEq, Repr

/-- Metadata view of a session as returned by `getAllSessions` (without pty
details). -/
structure SessionMeta : Type where
  id : Nat
  repo : String
  repoPath : String
  status : String
  createdAt : String
  deriving DecidableEq, Repr

/-- State of the session manager plus the pty processes it has spawned. The
JS `Map` from id to session is represented by the list of its values (every
insertion uses the session's own freshly generated id as key); `uuidv4` and
OS pid allocation are represented by the monotone counters `nextId` and
`nextPid`, freshness being an explicit invariant. `ptys` is the table of all
handles ever spawned, keyed by pid. -/
structure SMState : Type where
  sessions : List Session
  ptys : List PtyHandle
  nextId : Nat
  nextPid : Nat
  deriving DecidableEq, Repr

/-- The empty in-memory storage (`const sessions = new Map()`). -/
def initState : SMState :=
  { sessions := [], ptys := [], nextId := 0, nextPid := 0 }

/-- Model of `path.basename`: the last `/`-separated component. -/
def basename (p : String) : String :=
  (p.splitOn "/").getLast?.getD p

/-- Model of `spawnPty` from `src/services/ptyManager.js` (lines 156–180):
spawn the platform shell with default dimensions 80×24 and return the live
handle. -/
def spawnPty (st : SMState) : PtyHandle × SMState :=
  let h : PtyHandle :=
    { pid := st.nextPid, cols := 80, rows := 24, alive := true, written := [] }
  (h, { st with ptys := st.ptys ++ [h], nextPid := st.nextPid + 1 })

/-- Error message thrown by `createSession` at capacity
(`Maximum sessions (N) reached`); this is the `CapacityExceeded` condition of
the spec's error taxonomy. -/
def capacityError (maxSessions : Nat) : String :=
  "Maximum sessions (" ++ toString maxSessions ++ ") reached"

/-- Model of `createSession` from `src/services/sessionManager.js`
(lines 23–62): throw `CapacityExceeded` when
`sessions.size >= config.maxSessions` (before anything is spawned or
registered); otherwise generate a fresh id, spawn a pty, build the session
record with `status: 'running'`, and register it. `home` stands for
`process.env.HOME` and `now` for `new Date().toISOString()`. The auto-start
bootstrap write is a separate, delayed event and is not part of this step. -/
def createSession (maxSessions : Nat) (home : String) (now : String)
    (repoPath : String) (st : SMState) : Except String Session × SMState :=
  if st.sessions.length ≥ maxSessions then
    (Except.error (capacityError maxSessions), st)
  else
    let id := st.nextId
    let st0 := { st with nextId := st.nextId + 1 }
    let (pty, st1) := spawnPty st0
    let isHomeDir := repoPath = "/home/liam" ∨ repoPath = home
    let repoName := if isHomeDir then "~" else basename repoPath
    let session : Session :=
      { id := id, ptyPid := pty.pid, repoPath := repoPath, repo := repoName,
        status := "running", createdAt := now }
    (Except.ok session, { st1 with sessions := st1.sessions ++ [session] })

/-- Model of `getSession` from `src/services/sessionManager.js`
(lines 69–71). -/
def getSession (id : Nat) (st : SMState) : Option Session :=
  st.sessions.find? (fun s => s.id == id)

/-- Model of `getAllSessions` from `src/services/sessionManager.js`
(lines 77–85). -/
def getAllSessions (st : SMState) : List SessionMeta :=
  st.sessions.map (fun s =>
    { id := s.id, repo := s.repo, repoPath := s.repoPath, status := s.status,
      createdAt := s.createdAt })

/-- Application of `killPty` to the handle with the given pid. -/
def killPid (pid : Nat) (ptys : List PtyHandle) : List PtyHandle :=
  ptys.map (fun p => if p.pid = pid then killPty p else p)

/-- Model of `deleteSession` from `src/services/sessionManager.js`
(lines 92–103): unknown id → `false` with no side effect; known id →
`killPty` the backing process, remove the entry, return `true`. -/
def deleteSession (id : Nat) (st : SMState) : Bool × SMState :=
  match st.sessions.find? (fun s => s.id == id) with
  | none => (false, st)
  | some s =>
      (true,
       { st with
          ptys := killPid s.ptyPid st.ptys
          sessions := st.sessions.filter (fun t => t.id != id) })

/-- Model of `resizeSession` from `src/services/sessionManager.js`
(lines 111–116): look the session up and forward to `resizePty`; on a missing
id do nothing. An error from the pty layer leaves the handle unchanged. -/
def resizeSession (id : Nat) (cols rows : Int) (st : SMState) : SMState :=
  match st.sessions.find? (fun s => s.id == id) with
  | none => st
  | some s =>
      { st with
          ptys := st.ptys.map (fun p =>
            if p.pid = s.ptyPid then
              match resizePty p cols rows with
              | Except.ok p2 => p2
              | Except.error _ => p
            else p) }

/-- Model of `writeToSession` from `src/services/sessionManager.js`
(lines 123–128). -/
def writeToSession (id : Nat) (data : String) (st : SMState) : SMState :=
  match st.sessions.find? (fun s => s.id == id) with
  | none => st
  | some s =>
      { st with
          ptys := st.ptys.map (fun p =>
            if p.pid = s.ptyPid then writePty p data else p) }

/-- Model of `getSessionCount` from `src/services/sessionManager.js`
(lines 134–136). -/
def getSessionCount (st : SMState) : Nat :=
  st.sessions.length

/-- Server-side operations that can touch the session registry or a session's
pty over a server lifetime, as exposed by the REST routes, the WebSocket
message dispatcher, and the pty events. `connect`, `disconnect` and
`processExit` act only on per-connection state (`src/routes/ws.js` registers
no session-manager side effects for them), so they leave the registry state
unchanged. -/
inductive Op : Type
  | create (home now repoPath : String)
  | deleteOp (id : Nat)
  | resizeOp (id : Nat) (cols rows : Int)
  | inputOp (id : Nat) (data : String)
  | processExit (id : Nat)
  | connect (id : Nat)
  | disconnect (id : Nat)

/-- Application of one operation to the session-manager state. -/
def applyOp (maxSessions : Nat) (st : SMState) : Op → SMState
  | Op.create home now repoPath =>
      (createSession maxSessions home now repoPath st).2
  | Op.deleteOp id => (deleteSession id st).2
  | Op.resizeOp id cols rows => resizeSession id cols rows st
  | Op.inputOp id data => writeToSession id data st
  | Op.processExit _ => st
  | Op.connect _ => st
  | Op.disconnect _ => st

/-- Run of a sequence of operations from a starting state. -/
def runOps (maxSessions : Nat) (ops : List Op) (st : SMState) : SMState :=
  ops.foldl (applyOp maxSessions) st

/-- Global connection table of `src/routes/ws.js`
(`const connections = new Map()`), mapping a session id to the connection
currently stored for it, alongside the session-manager state. -/
structure GlobalState : Type where
  sm : SMState
  connections : List (Nat × Nat)
  deriving DecidableEq, Repr

/-- Model of the `ws.on('close')` handler from `src/routes/ws.js`
(lines 172–181): it clears the connection's pending flush timeout and removes
the session's entry from the connection table — nothing else. It calls
neither `killPty` nor any session-manager function. -/
def wsCloseHandler (sessionId : Nat) (conn : ConnState) (g : GlobalState) :
    ConnState × GlobalState :=
  ({ conn with flushTimeout := false },
   { g with connections := g.connections.filter (fun e => e.1 != sessionId) })

/-- One WebSocket connection attached to a session, tagged with an identity
so that pty event subscriptions can refer to it. -/
structure Attached : Type where
  connId : Nat
  conn : ConnState
  deriving DecidableEq, Repr

/-- A session's pty event subscriptions together with all connections ever
attached to it. The `onData`/`onExit` methods of `node-pty` register an
*additional* listener each time they are called (they never replace or remove
existing listeners), so the subscription lists grow with every attach;
emitting an event invokes every registered handler, in registration order. -/
structure SessionConns : Type where
  dataHandlers : List Nat
  exitHandlers : List Nat
  conns : List Attached
  deriving DecidableEq, Repr

/-- Model of the `wss.on('connection')` handler of `src/routes/ws.js` for one
new connection: send the initial `status: connected` envelope, then register
this connection's `ptyDataHandler` via `session.pty.onData` and its
`ptyExitHandler` via `session.pty.onExit`. Nothing detaches the handlers of
previously attached connections (`connections.set` only overwrites the table
entry; the old socket and its subscriptions are left as they are). -/
def attachConnection (connId : Nat) (sessionId : String) (s : SessionConns) :
    SessionConns :=
  let conn : ConnState :=
    { outputBuffer := ""
      flushTimeout := false
      wsOpen := true
      isAlive := true
      sent := [Envelope.statusMsg "connected" sessionId] }
  { dataHandlers := s.dataHandlers ++ [connId]
    exitHandlers := s.exitHandlers ++ [connId]
    conns := s.conns ++ [⟨connId, conn⟩] }

/-- The transport socket of the given connection leaves the `OPEN` state and
its `close` handler runs (clearing the pending flush timeout); the pty
subscriptions are *not* removed. -/
def closeSocket (connId : Nat) (s : SessionConns) : SessionConns :=
  { s with
      conns := s.conns.map (fun a =>
        if a.connId = connId then
          ⟨a.connId, { a.conn with wsOpen := false, flushTimeout := false }⟩
        else a) }

/-- The pty emits an output chunk: every registered data handler runs. -/
def emitData (chunk : String) (s : SessionConns) : SessionConns :=
  { s with
      conns := s.conns.map (fun a =>
        if a.connId ∈ s.dataHandlers then
          ⟨a.connId, ptyDataHandler chunk a.conn⟩
        else a) }

/-- The pty exits: every registered exit handler runs. -/
def emitExit (code : Int) (s : SessionConns) : SessionConns :=
  { s with
      conns := s.conns.map (fun a =>
        if a.connId ∈ s.exitHandlers then
          ⟨a.connId, ptyExitHandler code a.conn⟩
        else a) }

/-- Every pending flush timer fires. -/
def fireFlushTimers (s : SessionConns) : SessionConns :=
  { s with
      conns := s.conns.map (fun a =>
        if a.conn.flushTimeout = true then ⟨a.connId, flushBuffer a.conn⟩
        else a) }

/-- Constant `maxReconnectAttempts: 5` from the client app object in
`public/js/resize-coordinator.js`. -/
def maxReconnectAttempts : Nat := 5

/-- Per-session reconnection state of the client coordinator: the
`reconnectAttempts` counter (0 at session init, reset to 0 in `ws.onopen`). -/
structure ReconnState : Type where
  reconnectAttempts : Nat
  deriving DecidableEq, Repr

/-- Outcome of one run of the coordinator's `ws.onclose` handler: the updated
state, the delay of the retry it scheduled via `setTimeout` (if any), and
whether it surfaced the terminal connection-failed condition. -/
structure CloseResult : Type where
  st : ReconnState
  scheduledDelay : Option Nat
  surfacedFailure : Bool
  deriving DecidableEq, Repr

/-- Model of the `ws.onclose` handler from `public/js/resize-coordinator.js`
(lines 1250–1288): on an abnormal close (`event.code !== 1000`) with
`reconnectAttempts < maxReconnectAttempts`, first increment
`reconnectAttempts`, then schedule a retry after
`Math.min(1000 * Math.pow(2, reconnectAttempts), 10000)` milliseconds;
otherwise, if `reconnectAttempts >= maxReconnectAttempts`, surface the
terminal "Connection failed" condition and schedule nothing. -/
def wsOnClose (closeCode : Nat) (s : ReconnState) : CloseResult :=
  if closeCode ≠ 1000 ∧ s.reconnectAttempts < maxReconnectAttempts then
    let a := s.reconnectAttempts + 1
    { st := { reconnectAttempts := a }
      scheduledDelay := some (min (1000 * 2 ^ a) 10000)
      surfacedFailure := false }
  else if s.reconnectAttempts ≥ maxReconnectAttempts then
    { st := s, scheduledDelay := none, surfacedFailure := true }
  else
    { st := s, scheduledDelay := none, surfacedFailure := false }

/-- Model of the `ws.onopen` handler: it resets `reconnectAttempts` to 0. -/
def wsOnOpen (_s : ReconnState) : ReconnState :=
  { reconnectAttempts := 0 }

/-- State after `k` successive closes with the given close code, starting
from the given state. -/
def iterClose (code : Nat) : Nat → ReconnState → ReconnState
  | 0, s => s
  | k + 1, s => (wsOnClose code (iterClose code k s)).st

/-- Delay scheduled by the `k`-th retry (k = 0, 1, 2, …) of a run that starts
with a fresh counter and closes with the same code every time. -/
def nthRetryDelay (code k : Nat) : Option Nat :=
  (wsOnClose code (iterClose code k { reconnectAttempts := 0 })).scheduledDelay

/- ------------------------------------------------------------------ -/
/- Theorems -/
/- ------------------------------------------------------------------ -/

theorem string_append_assoc (a b c : String) :
    a ++ b ++ c = a ++ (b ++ c) := by
  apply String.ext
  simp [String.data_append]

theorem runChunks_outputBuffer (chunks : List String) (st : ConnState) :
    (runChunks chunks st).outputBuffer
      = st.outputBuffer ++ concatChunks chunks := by
  induction chunks generalizing st with
  | nil => simp [runChunks, concatChunks, String.append_empty]
  | cons c cs ih =>
      simp only [runChunks, List.foldl_cons, concatChunks] at *
      rw [ih, ptyDataHandler, string_append_assoc]

theorem runChunks_wsOpen (chunks : List String) (st : ConnState) :
    (runChunks chunks st).wsOpen = st.wsOpen := by
  induction chunks generalizing st with
  | nil => rfl
  | cons c cs ih => simpa [runChunks, ptyDataHandler] using ih _

theorem runChunks_sent (chunks : List String) (st : ConnState) :
    (runChunks chunks st).sent = st.sent := by
  induction chunks generalizing st with
  | nil => rfl
  | cons c cs ih => simpa [runChunks, ptyDataHandler] using ih _

/-- C1: all output chunks delivered within one flush window are sent, when the
timer fires, as exactly one `output` envelope whose data is the in-order
concatenation of the chunks; no byte is dropped, reordered, or duplicated. -/
theorem output_batching_single_envelope (chunks : List String) (st : ConnState)
    (hbuf : st.outputBuffer = "") (hopen : st.wsOpen = true)
    (hne : concatChunks chunks ≠ "") :
    (flushBuffer (runChunks chunks st)).sent
        = st.sent ++ [Envelope.output (concatChunks chunks)]
      ∧ (flushBuffer (runChunks chunks st)).outputBuffer = "" := by
  have hb := runChunks_outputBuffer chunks st
  rw [hbuf, String.empty_append] at hb
  have ho := runChunks_wsOpen chunks st
  have hs := runChunks_sent chunks st
  rw [hopen] at ho
  constructor <;> simp [flushBuffer, hb, ho, hs, hne]

theorem output_batching_single_envelope_witness :
    concatChunks ["A", "B", "C"] ≠ ""
      ∧ ((flushBuffer (runChunks ["A", "B", "C"] ⟨"", false, true, true, []⟩)).sent
            = [] ++ [Envelope.output (concatChunks ["A", "B", "C"])]
          ∧ (flushBuffer
              (runChunks ["A", "B", "C"] ⟨"", false, true, true, []⟩)).outputBuffer
            = "") :=
  ⟨by decide,
   output_batching_single_envelope ["A", "B", "C"] ⟨"", false, true, true, []⟩
     rfl rfl (by decide)⟩

/-- C2: when the process exits, a non-empty buffer is flushed as one `output`
envelope before the `exit` envelope; the `exit` envelope is never sent before
or interleaved with buffered output (and nothing is sent on a closed socket). -/
theorem exit_envelope_after_flush (exitCode : Int) (st : ConnState) :
    (ptyExitHandler exitCode st).sent
      = st.sent ++
          (if st.wsOpen = true then
            (if st.outputBuffer ≠ "" then
              [Envelope.output st.outputBuffer, Envelope.exitMsg exitCode]
            else [Envelope.exitMsg exitCode])
          else []) := by
  unfold ptyExitHandler flushBuffer
  by_cases ho : st.wsOpen = true <;> by_cases hb : st.outputBuffer ≠ "" <;>
    simp [ho, hb]

/-- C7: a `ping` envelope carrying timestamp `T` is answered by exactly one
`pong` envelope carrying the same `T`, appended after everything already sent
(so no output envelope is dropped, duplicated, or reordered), and the
exchange leaves the output buffer and the pty untouched. -/
theorem ping_answered_with_same_timestamp (ts : Int) (p : PtyHandle)
    (st : ConnState) (_hopen : st.wsOpen = true) :
    (handleClientMessage (ClientMsg.ping ts) p st).1 = p
      ∧ (handleClientMessage (ClientMsg.ping ts) p st).2.sent
          = st.sent ++ [Envelope.pong ts]
      ∧ (handleClientMessage (ClientMsg.ping ts) p st).2.outputBuffer
          = st.outputBuffer := by
  refine ⟨rfl, ?_, rfl⟩
  simp [handleClientMessage]

theorem ping_answered_with_same_timestamp_witness :
    (⟨"", false, true, true, []⟩ : ConnState).wsOpen = true
      ∧ ((handleClientMessage (ClientMsg.ping 42) ⟨1, 80, 24, true, []⟩
            ⟨"", false, true, true, []⟩).1 = ⟨1, 80, 24, true, []⟩
          ∧ (handleClientMessage (ClientMsg.ping 42) ⟨1, 80, 24, true, []⟩
              ⟨"", false, true, true, []⟩).2.sent = [] ++ [Envelope.pong 42]
          ∧ (handleClientMessage (ClientMsg.ping 42) ⟨1, 80, 24, true, []⟩
              ⟨"", false, true, true, []⟩).2.outputBuffer = "") :=
  ⟨rfl, ping_answered_with_same_timestamp 42 ⟨1, 80, 24, true, []⟩
     ⟨"", false, true, true, []⟩ rfl⟩

/-- C8 counterexample: `resizePty` performs no validation of its own, so a
resize to `(0, 0)` raises the underlying pty error instead of being ignored
without error. -/
theorem resizePty_zero_raises :
    resizePty ⟨1, 80, 24, true, []⟩ 0 0
      = Except.error "resizing must be done using positive cols and rows" := by
  rfl

/-- C8 amended: the process bridge's `resizePty` does not itself ignore
non-positive dimensions — it propagates the pty layer's error (see the
counterexample). At the WebSocket layer, however, a `resize` message with any
non-positive `cols` or `rows` leaves the handle's dimensions (and the whole
connection state) unchanged and is handled totally: zero values are dropped by
the truthiness guard, and the error raised for negative values is caught by
the message handler's `try/catch`. -/
theorem resize_nonpositive_leaves_dimensions (p : PtyHandle) (cols rows : Int)
    (st : ConnState) (h : cols ≤ 0 ∨ rows ≤ 0) :
    handleClientMessage (ClientMsg.resize cols rows) p st = (p, st) := by
  by_cases hc : cols ≠ 0 ∧ rows ≠ 0
  · simp [handleClientMessage, hc, resizePty, nodePtyResize, h]
  · simp [handleClientMessage, hc]

theorem resize_nonpositive_leaves_dimensions_witness :
    ((0 : Int) ≤ 0 ∨ (0 : Int) ≤ 0)
      ∧ handleClientMessage (ClientMsg.resize 0 0) ⟨1, 80, 24, true, []⟩
          ⟨"", false, true, true, []⟩
        = (⟨1, 80, 24, true, []⟩, ⟨"", false, true, true, []⟩) :=
  ⟨Or.inl le_rfl,
   resize_nonpositive_leaves_dimensions ⟨1, 80, 24, true, []⟩ 0 0
     ⟨"", false, true, true, []⟩ (Or.inl le_rfl)⟩

/-- C5: while the live session count is below the maximum, `createSession`
returns a session whose id is fresh (distinct from every registered id) and
registers it; once the count has reached the maximum, the next call fails
with the `CapacityExceeded` error and the whole state — registry table and
spawned-process table alike — is unchanged, so no process is spawned. -/
theorem create_session_capacity (maxSessions : Nat) (home now repoPath : String)
    (st : SMState) (hfresh : ∀ s ∈ st.sessions, s.id < st.nextId) :
    (st.sessions.length < maxSessions →
      ∃ sess, (createSession maxSessions home now repoPath st).1 = Except.ok sess
        ∧ sess.id = st.nextId
        ∧ (∀ s ∈ st.sessions, s.id ≠ sess.id)
        ∧ sess.status = "running"
        ∧ (createSession maxSessions home now repoPath st).2.sessions
            = st.sessions ++ [sess])
    ∧ (st.sessions.length ≥ maxSessions →
        createSession maxSessions home now repoPath st
          = (Except.error (capacityError maxSessions), st)) := by
  constructor
  · intro hlt
    have hge : ¬ st.sessions.length ≥ maxSessions := not_le.mpr hlt
    refine ⟨{ id := st.nextId, ptyPid := st.nextPid, repoPath := repoPath,
              repo := if repoPath = "/home/liam" ∨ repoPath = home then "~"
                      else basename repoPath,
              status := "running", createdAt := now }, ?_, rfl, ?_, rfl, ?_⟩
    · simp [createSession, hge, spawnPty]
    · intro s hs
      exact Nat.ne_of_lt (hfresh s hs)
    · simp [createSession, hge, spawnPty]
  · intro hge
    simp [createSession, hge]

theorem create_session_capacity_witness :
    (∀ s ∈ initState.sessions, s.id < initState.nextId)
      ∧ ((initState.sessions.length < 3 →
          ∃ sess, (createSession 3 "/home/u" "t0" "/repos/a" initState).1
              = Except.ok sess
            ∧ sess.id = initState.nextId
            ∧ (∀ s ∈ initState.sessions, s.id ≠ sess.id)
            ∧ sess.status = "running"
            ∧ (createSession 3 "/home/u" "t0" "/repos/a" initState).2.sessions
                = initState.sessions ++ [sess])
        ∧ (initState.sessions.length ≥ 3 →
            createSession 3 "/home/u" "t0" "/repos/a" initState
              = (Except.error (capacityError 3), initState)))
      ∧ (∀ s ∈ (SMState.mk
            [⟨0, 0, "/repos/a", "a", "running", "t0"⟩,
             ⟨1, 1, "/repos/a", "a", "running", "t0"⟩,
             ⟨2, 2, "/repos/a", "a", "running", "t0"⟩] [] 3 3).sessions,
          s.id < (SMState.mk
            [⟨0, 0, "/repos/a", "a", "running", "t0"⟩,
             ⟨1, 1, "/repos/a", "a", "running", "t0"⟩,
             ⟨2, 2, "/repos/a", "a", "running", "t0"⟩] [] 3 3).nextId)
      ∧ ((SMState.mk
            [⟨0, 0, "/repos/a", "a", "running", "t0"⟩,
             ⟨1, 1, "/repos/a", "a", "running", "t0"⟩,
             ⟨2, 2, "/repos/a", "a", "running", "t0"⟩] [] 3 3).sessions.length
              ≥ 3 →
          createSession 3 "/home/u" "t0" "/repos/a"
              (SMState.mk
                [⟨0, 0, "/repos/a", "a", "running", "t0"⟩,
                 ⟨1, 1, "/repos/a", "a", "running", "t0"⟩,
                 ⟨2, 2, "/repos/a", "a", "running", "t0"⟩] [] 3 3)
            = (Except.error (capacityError 3),
               SMState.mk
                [⟨0, 0, "/repos/a", "a", "running", "t0"⟩,
                 ⟨1, 1, "/repos/a", "a", "running", "t0"⟩,
                 ⟨2, 2, "/repos/a", "a", "running", "t0"⟩] [] 3 3)) :=
  ⟨by decide,
   create_session_capacity 3 "/home/u" "t0" "/repos/a" initState (by decide),
   by decide,
   (create_session_capacity 3 "/home/u" "t0" "/repos/a"
      (SMState.mk
        [⟨0, 0, "/repos/a", "a", "running", "t0"⟩,
         ⟨1, 1, "/repos/a", "a", "running", "t0"⟩,
         ⟨2, 2, "/repos/a", "a", "running", "t0"⟩] [] 3 3) (by decide)).2⟩

/-- C6: `deleteSession` on an unknown id returns `false` and leaves the whole
state unchanged (no process is killed); on a known id it returns `true`,
kills that session's backing process, and afterwards `getSession` returns
none and `getAllSessions` no longer lists the id. -/
theorem delete_session_spec (id : Nat) (st : SMState) :
    (getSession id st = none → deleteSession id st = (false, st))
    ∧ (∀ s, getSession id st = some s →
        (deleteSession id st).1 = true
        ∧ getSession id (deleteSession id st).2 = none
        ∧ (∀ m ∈ getAllSessions (deleteSession id st).2, m.id ≠ id)
        ∧ (∀ p ∈ (deleteSession id st).2.ptys,
            p.pid = s.ptyPid → p.alive = false)) := by
  constructor
  · intro h
    unfold getSession at h
    unfold deleteSession
    rw [h]
  · intro s hs
    unfold getSession at hs
    unfold deleteSession
    rw [hs]
    refine ⟨rfl, ?_, ?_, ?_⟩
    · simp only [getSession, List.find?_eq_none, List.mem_filter]
      intro t ht
      have := ht.2
      simp only [bne_iff_ne, ne_eq] at this
      simp [this]
    · simp only [getAllSessions, List.mem_map, List.mem_filter]
      rintro m ⟨t, ⟨_, ht⟩, rfl⟩
      simpa [bne_iff_ne] using ht
    · simp only [killPid, List.mem_map]
      rintro p ⟨q, _, rfl⟩
      intro hp
      by_cases hq : q.pid = s.ptyPid
      · simp [hq, killPty]
      · simp only [hq, if_false] at hp ⊢

theorem delete_session_spec_witness :
    (getSession 5 initState = none → deleteSession 5 initState
        = (false, initState))
    ∧ ((deleteSession 0
          (SMState.mk [⟨0, 0, "/repos/a", "a", "running", "t0"⟩]
            [⟨0, 80, 24, true, []⟩] 1 1)).1 = true
        ∧ getSession 0 (deleteSession 0
            (SMState.mk [⟨0, 0, "/repos/a", "a", "running", "t0"⟩]
              [⟨0, 80, 24, true, []⟩] 1 1)).2 = none
        ∧ (∀ m ∈ getAllSessions (deleteSession 0
            (SMState.mk [⟨0, 0, "/repos/a", "a", "running", "t0"⟩]
              [⟨0, 80, 24, true, []⟩] 1 1)).2, m.id ≠ 0)
        ∧ (∀ p ∈ (deleteSession 0
            (SMState.mk [⟨0, 0, "/repos/a", "a", "running", "t0"⟩]
              [⟨0, 80, 24, true, []⟩] 1 1)).2.ptys,
            p.pid = (Session.mk 0 0 "/repos/a" "a" "running" "t0").ptyPid →
              p.alive = false)) :=
  ⟨(delete_session_spec 5 initState).1,
   (delete_session_spec 0
      (SMState.mk [⟨0, 0, "/repos/a", "a", "running", "t0"⟩]
        [⟨0, 80, 24, true, []⟩] 1 1)).2
     (Session.mk 0 0 "/repos/a" "a" "running" "t0") (by decide)⟩

theorem applyOp_status (maxSessions : Nat) (st : SMState) (op : Op)
    (h : ∀ s ∈ st.sessions, s.status = "running") :
    ∀ s ∈ (applyOp maxSessions st op).sessions, s.status = "running" := by
  cases op with
  | create home now repoPath =>
      intro s hs
      simp only [applyOp, createSession] at hs
      split at hs
      · exact h s hs
      · simp only [spawnPty, List.mem_append, List.mem_singleton] at hs
        rcases hs with hs | rfl
        · exact h s hs
        · rfl
  | deleteOp id =>
      intro s hs
      simp only [applyOp, deleteSession] at hs
      split at hs
      · exact h s hs
      · simp only [List.mem_filter] at hs
        exact h s hs.1
  | resizeOp id cols rows =>
      intro s hs
      simp only [applyOp, resizeSession] at hs
      split at hs
      · exact h s hs
      · exact h s hs
  | inputOp id data =>
      intro s hs
      simp only [applyOp, writeToSession] at hs
      split at hs
      · exact h s hs
      · exact h s hs
  | processExit id => exact h
  | connect id => exact h
  | disconnect id => exact h

/-- C10: starting from the empty registry, after any sequence of operations
every registered session — hence everything reported by `getSession` and
`getAllSessions` — has status `'running'`; no operation ever writes any other
status, so `'starting'`, `'disconnected'` and `'terminated'` are never
observable server-side. -/
theorem session_status_always_running (maxSessions : Nat) (ops : List Op) :
    (∀ s ∈ (runOps maxSessions ops initState).sessions, s.status = "running")
    ∧ (∀ m ∈ getAllSessions (runOps maxSessions ops initState),
        m.status = "running")
    ∧ (∀ id s, getSession id (runOps maxSessions ops initState) = some s →
        s.status = "running") := by
  have key : ∀ (st : SMState), (∀ s ∈ st.sessions, s.status = "running") →
      ∀ s ∈ (runOps maxSessions ops st).sessions, s.status = "running" := by
    induction ops with
    | nil => intro st h; exact h
    | cons op rest ih =>
        intro st h
        exact ih _ (applyOp_status maxSessions st op h)
  have base : ∀ s ∈ initState.sessions, s.status = "running" := by
    intro s hs
    simp [initState] at hs
  have main := key initState base
  refine ⟨main, ?_, ?_⟩
  · intro m hm
    simp only [getAllSessions, List.mem_map] at hm
    obtain ⟨s, hs, rfl⟩ := hm
    exact main s hs
  · intro id s hs
    unfold getSession at hs
    exact main s (List.mem_of_find?_eq_some hs)

theorem session_status_always_running_witness :
    (∀ s ∈ (runOps 3 [Op.create "/home/u" "t0" "/repos/a"] initState).sessions,
      s.status = "running")
    ∧ (∀ m ∈ getAllSessions (runOps 3 [Op.create "/home/u" "t0" "/repos/a"]
        initState), m.status = "running")
    ∧ (∀ id s, getSession id (runOps 3 [Op.create "/home/u" "t0" "/repos/a"]
        initState) = some s → s.status = "running") :=
  session_status_always_running 3 [Op.create "/home/u" "t0" "/repos/a"]

/-- C9: closing a connection — however the close was caused — never
terminates the backing process and never removes the session from the
registry: the session-manager state is untouched, the connection sends
nothing further, and the only mutations are the connection's own timer and
the connection-table entry. -/
theorem close_never_kills_process (sessionId : Nat) (conn : ConnState)
    (g : GlobalState) :
    (wsCloseHandler sessionId conn g).2.sm = g.sm
    ∧ (wsCloseHandler sessionId conn g).1
        = { conn with flushTimeout := false }
    ∧ (wsCloseHandler sessionId conn g).1.sent = conn.sent
    ∧ (wsCloseHandler sessionId conn g).2.connections
        = g.connections.filter (fun e => e.1 != sessionId) :=
  ⟨rfl, rfl, rfl, rfl⟩

/-- C3 counterexample: attach connection 1, then connection 2, to the same
session while both sockets stay open; the pty emits `"x"` and then exits.
The chunk is delivered to *both* connections and the exit envelope is sent on
*both* — attaching the second connection did not invalidate the first one's
subscriptions. -/
theorem second_connection_duplicate_delivery :
    ((emitExit 0 (fireFlushTimers (emitData "x"
        (attachConnection 2 "sid" (attachConnection 1 "sid"
          ⟨[], [], []⟩))))).conns.map (fun a => a.conn.sent))
      = [[Envelope.statusMsg "connected" "sid", Envelope.output "x",
          Envelope.exitMsg 0],
         [Envelope.statusMsg "connected" "sid", Envelope.output "x",
          Envelope.exitMsg 0]] := by
  rfl

/-- C3 amended: attaching a second connection leaves the previous
connection's pty subscriptions in place (its handlers keep running and keep
buffering), so no-duplicate-delivery holds only because of the socket-state
guards: when the previous connection's socket is no longer open — the normal
reconnect case — the flush and exit sends on it are suppressed, and output
and exit envelopes reach only the new connection. -/
theorem duplicate_delivery_only_to_open_sockets (sid chunk : String)
    (code : Int) (hne : chunk ≠ "") :
    ((emitExit code (fireFlushTimers (emitData chunk
        (attachConnection 2 sid (closeSocket 1 (attachConnection 1 sid
          ⟨[], [], []⟩)))))).conns.map (fun a => a.conn.sent))
      = [[Envelope.statusMsg "connected" sid],
         [Envelope.statusMsg "connected" sid, Envelope.output chunk,
          Envelope.exitMsg code]] := by
  simp [attachConnection, closeSocket, emitData, emitExit, fireFlushTimers,
    ptyDataHandler, ptyExitHandler, flushBuffer, String.empty_append, hne]

theorem duplicate_delivery_only_to_open_sockets_witness :
    ("x" : String) ≠ ""
      ∧ ((emitExit 0 (fireFlushTimers (emitData "x"
            (attachConnection 2 "sid" (closeSocket 1 (attachConnection 1 "sid"
              ⟨[], [], []⟩)))))).conns.map (fun a => a.conn.sent))
          = [[Envelope.statusMsg "connected" "sid"],
             [Envelope.statusMsg "connected" "sid", Envelope.output "x",
              Envelope.exitMsg 0]] :=
  ⟨by decide, duplicate_delivery_only_to_open_sockets "sid" "x" 0 (by decide)⟩

/-- C4 counterexample: the very first retry after an abnormal close is
scheduled after `min(1000·2¹, 10000) = 2000` ms, not after
`min(base·2⁰, capDelay) = base = 1000` ms as claimed — the counter is
incremented *before* the delay is computed, so the delay sequence starts at
`2·base`. -/
theorem first_retry_delay_is_double_base :
    nthRetryDelay 1006 0 = some 2000
      ∧ some 2000 ≠ some (min (1000 * 2 ^ 0) 10000) := by
  decide

theorem iterClose_reconnectAttempts (code k : Nat) (h : code ≠ 1000) :
    (iterClose code k { reconnectAttempts := 0 }).reconnectAttempts
      = min k maxReconnectAttempts := by
  induction k with
  | zero => simp [iterClose]
  | succ k ih =>
      simp only [iterClose, wsOnClose]
      by_cases hk : k < maxReconnectAttempts
      · rw [if_pos ⟨h, by rw [ih]; omega⟩]
        simp only []
        rw [ih]
        omega
      · rw [if_neg (by rw [ih]; omega), if_pos (by rw [ih]; omega)]
        rw [ih]
        omega

/-- C4 amended: for every run of the coordinator after abnormal closes, the
`k`-th retry delay (k = 0, 1, 2, …) equals `min(base·2^(k+1), capDelay)` with
base = 1000 ms and capDelay = 10000 ms — i.e. the successive delays are
`2·base, 4·base, 8·base, …` capped at `capDelay` (one doubling ahead of the
claimed sequence); and once `maxReconnectAttempts` (5) retries have been
used, no further attempt is ever scheduled and the terminal failure
condition is surfaced, distinct from "still retrying". -/
theorem retry_delay_schedule (code k : Nat) (h : code ≠ 1000) :
    nthRetryDelay code k
        = (if k < maxReconnectAttempts
            then some (min (1000 * 2 ^ (k + 1)) 10000) else none)
      ∧ (k ≥ maxReconnectAttempts →
          (wsOnClose code
            (iterClose code k { reconnectAttempts := 0 })).surfacedFailure
            = true) := by
  have ha := iterClose_reconnectAttempts code k h
  constructor
  · unfold nthRetryDelay wsOnClose
    by_cases hk : k < maxReconnectAttempts
    · rw [if_pos ⟨h, by rw [ha]; omega⟩, if_pos hk]
      have : min k maxReconnectAttempts = k := by omega
      simp [ha, this]
    · rw [if_neg (by rw [ha]; omega), if_neg hk, if_pos (by rw [ha]; omega)]
  · intro hk
    unfold wsOnClose
    rw [if_neg (by rw [ha]; omega), if_pos (by rw [ha]; omega)]

theorem retry_delay_schedule_witness :
    (1006 : Nat) ≠ 1000
      ∧ (nthRetryDelay 1006 0
            = (if 0 < maxReconnectAttempts
                then some (min (1000 * 2 ^ (0 + 1)) 10000) else none)
          ∧ (0 ≥ maxReconnectAttempts →
              (wsOnClose 1006
                (iterClose 1006 0 { reconnectAttempts := 0 })).surfacedFailure
                = true))
      ∧ (nthRetryDelay 1006 5
            = (if 5 < maxReconnectAttempts
                then some (min (1000 * 2 ^ (5 + 1)) 10000) else none)
          ∧ (5 ≥ maxReconnectAttempts →
              (wsOnClose 1006
                (iterClose 1006 5 { reconnectAttempts := 0 })).surfacedFailure
                = true)) :=
  ⟨by decide, retry_delay_schedule 1006 0 (by decide),
   retry_delay_schedule 1006 5 (by decide)⟩

end ClaudeCodeRemote
